import Mathlib

/-!
Shallow embedding of the golden-pit / panic-wash pattern analyzer
(src/qym/trend_analysis/pattern_analyzer.py) over exact rational arithmetic.

A daily bar carries a date key (modelled as a natural number, the sort key of
the 'date' column) and the OHLCV fields.  Prices and volumes are rationals;
the Python floats are modelled by exact rational arithmetic.
-/

structure Bar where
  date : ℕ
  openp : ℚ   -- the 'open' column ('open' is reserved in Lean)
  high : ℚ
  low : ℚ
  close : ℚ
  volume : ℚ
deriving DecidableEq, Repr

/-- Enum PatternType (pattern_analyzer.py lines 24-28). -/
inductive PatternType where
  | goldenPit
  | panicWash
  | unknown
deriving DecidableEq, Repr

/-- Enum PatternStage (pattern_analyzer.py lines 31-38). -/
inductive PatternStage where
  | beforeDip
  | dipping
  | bottoming
  | rebounding
  | breakout
  | completed
deriving DecidableEq, Repr

/-- Dataclass PatternResult (pattern_analyzer.py lines 41-74).  Dates are the
date keys of the corresponding rows; the 'metadata' dict is never written by
the core and is omitted. -/
structure PatternResult where
  code : String
  pattern_type : PatternType
  confidence : ℚ
  start_date : ℕ
  dip_start_date : ℕ
  bottom_start_date : ℕ
  rebound_start_date : Option ℕ
  breakout_date : Option ℕ
  pre_high : ℚ
  dip_low : ℚ
  rebound_high : ℚ
  current_stage : PatternStage
  dip_duration : ℕ
  dip_amplitude : ℚ
  rebound_duration : ℕ
  rebound_amplitude : ℚ
  volume_ratio : ℚ
  buy_signal : Bool
  buy_reason : String
  risk_level : ℤ
deriving DecidableEq, Repr

/-! ### Row access and slice helpers (pandas iloc / slices on the DataFrame) -/

def dBar : Bar := ⟨0, 0, 0, 0, 0, 0⟩

def barAt (df : List Bar) (i : ℕ) : Bar := df.getD i dBar

def closeAt (df : List Bar) (i : ℕ) : ℚ := (barAt df i).close
def openAt (df : List Bar) (i : ℕ) : ℚ := (barAt df i).openp
def highAt (df : List Bar) (i : ℕ) : ℚ := (barAt df i).high
def lowAt (df : List Bar) (i : ℕ) : ℚ := (barAt df i).low
def volAt (df : List Bar) (i : ℕ) : ℚ := (barAt df i).volume
def dateAt (df : List Bar) (i : ℕ) : ℕ := (barAt df i).date

/-- Python slice df[a:b] of one column (accesses in the analyzer stay in
range, so the clamping semantics of take/drop matches iloc slicing). -/
def sliceMap (f : Bar → ℚ) (df : List Bar) (a b : ℕ) : List ℚ :=
  ((df.drop a).take (b - a)).map f

/-- pandas Series.mean; the analyzer only compares means of possibly-empty
slices against positive thresholds, where NaN (here 0) compares false. -/
def meanQ (xs : List ℚ) : ℚ := if xs.length = 0 then 0 else xs.sum / xs.length

def maxQ : List ℚ → ℚ
  | [] => 0
  | x :: xs => xs.foldl max x

def minQ : List ℚ → ℚ
  | [] => 0
  | x :: xs => xs.foldl min x

/-! ### Indicator columns of _calculate_indicators (lines 205-262).
The enrichment is a pure 1:1 transform; each column is embedded as a function
of the raw series and an index.  A rolling mean is undefined (NaN) while the
window has too little history; pandas comparisons with NaN are false, which
the callers below reproduce by matching on the Option. -/

def rollingMeanAt (w : ℕ) (xs : List ℚ) (i : ℕ) : Option ℚ :=
  if i + 1 < w ∨ xs.length ≤ i then none
  else some (((xs.drop (i + 1 - w)).take w).sum / w)

def volMA5 (df : List Bar) (i : ℕ) : Option ℚ :=
  rollingMeanAt 5 (df.map Bar.volume) i

def ma (w : ℕ) (df : List Bar) (i : ℕ) : Option ℚ :=
  rollingMeanAt w (df.map Bar.close) i

/-- gain series of _calculate_rsi: delta.where(delta > 0, 0); the first row's
NaN delta compares false against 0 and is replaced by 0. -/
def gainAt (df : List Bar) (j : ℕ) : ℚ :=
  if j = 0 then 0 else max (closeAt df j - closeAt df (j - 1)) 0

def lossAt (df : List Bar) (j : ℕ) : ℚ :=
  if j = 0 then 0 else max (closeAt df (j - 1) - closeAt df j) 0

def avgGain (df : List Bar) (i : ℕ) : ℚ :=
  ((List.range' (i - 13) 14).map (gainAt df)).sum / 14

def avgLoss (df : List Bar) (i : ℕ) : ℚ :=
  ((List.range' (i - 13) 14).map (lossAt df)).sum / 14

/-- RSI column of _calculate_rsi (lines 240-262).  The rolling averages exist
from index 13 on; rsi.fillna(50) turns the NaN rows (short history, and the
0/0 case of avg_gain/avg_loss) into 50.  When avg_loss = 0 with avg_gain > 0
the float division yields +inf and 100 - 100/(1+inf) stores 100, not 50. -/
def rsi (df : List Bar) (i : ℕ) : ℚ :=
  if i < 13 ∨ df.length ≤ i then 50
  else
    let ag := avgGain df i
    let al := avgLoss df i
    if al = 0 then (if ag = 0 then 50 else 100)
    else 100 - 100 / (1 + ag / al)

/-- np.polyfit(x, ys, 1) slope for x = 0,...,len-1: the least-squares closed
form (n*Sxy - Sx*Sy) / (n*Sxx - Sx^2); the denominator is nonzero for the
20-point windows the scanner uses. -/
def slopeFit (ys : List ℚ) : ℚ :=
  let n : ℚ := ys.length
  let xs : List ℚ := (List.range ys.length).map (fun i => (i : ℚ))
  let sx := xs.sum
  let sy := ys.sum
  let sxx := (xs.map (fun x => x * x)).sum
  let sxy := ((xs.zip ys).map (fun p => p.1 * p.2)).sum
  let d := n * sxx - sx * sx
  if d = 0 then 0 else (n * sxy - sx * sy) / d

/-! ### Candidate scanner _is_dip_start (lines 280-326) -/

/-- The 20 prior closes df['close'].iloc[idx-20:idx] the scanner regresses. -/
def dipStartPre (df : List Bar) (idx : ℕ) : List ℚ :=
  sliceMap Bar.close df (idx - 20) idx

/-- _is_dip_start: the PRE_TREND_DAYS guard, the normalized prior-trend slope
check, the day-over-day drop check and the bullish-body check, in source
order.  The vol_ratio local of the source is computed but never used and is
omitted. -/
def is_dip_start (df : List Bar) (idx : ℕ) : Bool :=
  if idx < 20 then false
  else
    let pre := dipStartPre df idx
    if pre.length < 10 then false
    else
      let avgPrice := meanQ pre
      let trendSlopePct := if 0 < avgPrice then slopeFit pre / avgPrice else 0
      if trendSlopePct < -0.005 then false
      else
        let priceChange := (closeAt df idx - closeAt df (idx - 1)) / closeAt df (idx - 1) * 100
        if -1.5 < priceChange then false
        else
          let bodySize := |closeAt df idx - openAt df idx| / openAt df idx * 100
          if openAt df idx < closeAt df idx ∧ 3 < bodySize then false
          else true

/-! ### Boundary searches (lines 415-524).
Each Python for-loop is embedded as structural recursion on the number of
remaining iterations (the loop ranges are finite and fixed up front). -/

/-- Loop body of _find_dip_end over i in range(s+1, min(s+16, n)), carrying
the running minimum close and its index; on loop exhaustion the source falls
through to the running-minimum fallback. -/
def find_dip_endAux (df : List Bar) (s : ℕ) : ℕ → ℕ → ℚ → ℕ → Option ℕ
  | 0, _, minP, minIdx =>
      if s < minIdx then
        let dsp := closeAt df (s - 1)
        if 5 ≤ |(minP - dsp) / dsp * 100| then some minIdx else none
      else none
  | fuel + 1, i, minP, minIdx =>
      let c := closeAt df i
      let minP' := if c < minP then c else minP
      let minIdx' := if c < minP then i else minIdx
      let bullish := openAt df i < closeAt df i
      let prevBullish := openAt df (i - 1) < closeAt df (i - 1)
      let bigBullish := 3 < (closeAt df i - openAt df i) / openAt df i * 100
      if (bullish ∧ prevBullish) ∨ bigBullish then
        let dsp := closeAt df (s - 1)
        if (c - dsp) / dsp * 100 < -5 then some i
        else find_dip_endAux df s fuel (i + 1) minP' minIdx'
      else find_dip_endAux df s fuel (i + 1) minP' minIdx'

/-- _find_dip_end (lines 415-456). -/
def find_dip_end (df : List Bar) (s : ℕ) : Option ℕ :=
  find_dip_endAux df s (min (s + 16) df.length - (s + 1)) (s + 1) (closeAt df s) s

/-- Running envelope low of the base search: min of the lows over rows s..i
(the accumulator bottom_low of _find_bottom_end at iteration i). -/
def envLow (df : List Bar) (s i : ℕ) : ℚ :=
  minQ (sliceMap Bar.low df s (i + 1))

/-- Running envelope high of the base search (accumulator bottom_high). -/
def envHigh (df : List Bar) (s i : ℕ) : ℚ :=
  maxQ (sliceMap Bar.high df s (i + 1))

/-- Volume condition of base-search rule (a):
volume > VOL_MA5 * 1.2, false when VOL_MA5 is still NaN. -/
def volGuard (df : List Bar) (i : ℕ) : Bool :=
  match volMA5 df i with
  | some v => decide (v * 1.2 < volAt df i)
  | none => false

/-- Termination rule (a) of _find_bottom_end (lines 476-483): envelope range
above CONSOLIDATION_RANGE with a bullish candle on 1.2x volume. -/
def bottom_range_cond (df : List Bar) (s i : ℕ) : Bool :=
  decide (0 < envHigh df s i) &&
  decide (5 < (envHigh df s i - envLow df s i) / envLow df s i * 100) &&
  decide (openAt df i < closeAt df i) &&
  volGuard df i

/-- Termination rule (b) of _find_bottom_end (lines 486-489): after the
minimum base duration, a close above the envelope high by more than 2%. -/
def bottom_break_cond (df : List Bar) (s i : ℕ) : Bool :=
  decide (s + 3 < i) && decide (envHigh df s i * 1.02 < closeAt df i)

def find_bottom_endAux (df : List Bar) (s : ℕ) : ℕ → ℕ → Option ℕ
  | 0, _ =>
      if s + 3 < df.length then some (min (s + 20) (df.length - 1)) else none
  | fuel + 1, i =>
      if bottom_range_cond df s i then some i
      else if bottom_break_cond df s i then some i
      else find_bottom_endAux df s fuel (i + 1)

/-- _find_bottom_end (lines 458-495): loop over range(s+1, min(s+21, n)),
then the max-span fallback min(s+20, n-1) guarded by the minimum duration. -/
def find_bottom_end (df : List Bar) (s : ℕ) : Option ℕ :=
  if df.length ≤ s then none
  else find_bottom_endAux df s (min (s + 21) df.length - (s + 1)) (s + 1)

/-- Inner lookahead of _find_rebound_end (lines 518-520): first j in
range(i+1, min(i+5, n)) whose close pulls back more than 2%, reporting j-1. -/
def firstPullback (df : List Bar) : ℕ → ℕ → Option ℕ
  | 0, _ => none
  | fuel + 1, j =>
      if closeAt df j < closeAt df (j - 1) * 0.98 then some (j - 1)
      else firstPullback df fuel (j + 1)

def find_rebound_endAux (df : List Bar) (s : ℕ) (rsp : ℚ) : ℕ → ℕ → ℚ → Option ℕ
  | 0, _, _ => none
  | fuel + 1, i, rh =>
      let rh' := max rh (highAt df i)
      if 10 ≤ (rh' - rsp) / rsp * 100 ∧ s + 2 ≤ i then
        if i < df.length - 1 then
          match firstPullback df (min (i + 5) df.length - (i + 1)) (i + 1) with
          | some k => some k
          | none => some i
        else some i
      else find_rebound_endAux df s rsp fuel (i + 1) rh'

/-- _find_rebound_end (lines 497-524). -/
def find_rebound_end (df : List Bar) (s : ℕ) : Option ℕ :=
  if df.length ≤ s then none
  else
    let rsp := if 0 < s then closeAt df (s - 1) else closeAt df s
    find_rebound_endAux df s rsp (min (s + 30) df.length - s) s (highAt df s)

/-- _identify_pattern lines 345-348: a missing or out-of-range rebound end
falls back to the last row. -/
def resolveReboundEnd (df : List Bar) (be : ℕ) : ℕ :=
  match find_rebound_end df (be + 1) with
  | none => df.length - 1
  | some re => if df.length ≤ re then df.length - 1 else re

/-! ### Formation validator, scorer, classifier (lines 526-805) -/

/-- Signed decline amplitude (close at decline end vs close the day before
the decline started), as used at lines 355-357 and 534-536. -/
def dipAmplitude (df : List Bar) (ds de : ℕ) : ℚ :=
  (closeAt df de - closeAt df (ds - 1)) / closeAt df (ds - 1) * 100

/-- Close-to-close rebound amplitude of _validate_pattern (lines 553-555). -/
def reboundAmpV (df : List Bar) (be re : ℕ) : ℚ :=
  (closeAt df re - closeAt df be) / closeAt df be * 100

/-- _validate_pattern (lines 526-560): each early return False of the source
becomes one (negated) conjunct, in source order. -/
def validate_pattern (df : List Bar) (ds de be re : ℕ) : Bool :=
  decide (ds < de ∧ de ≤ be ∧ be ≤ re) &&
  decide (5 ≤ |dipAmplitude df ds de| ∧ |dipAmplitude df ds de| ≤ 35) &&
  decide (2 ≤ de - ds + 1 ∧ de - ds + 1 ≤ 15) &&
  decide (3 ≤ be - de ∧ be - de ≤ 20) &&
  (decide (re ≤ be) || decide (10 ≤ reboundAmpV df be re))

/-- _determine_stage (lines 562-581). -/
def determine_stage (df : List Bar) (current ds de be re : ℕ) : PatternStage :=
  if current < ds then PatternStage.beforeDip
  else if current ≤ de then PatternStage.dipping
  else if current ≤ be then PatternStage.bottoming
  else if current ≤ re then PatternStage.rebounding
  else
    let preHigh := maxQ (sliceMap Bar.high df (ds - 20) ds)
    let curHigh := maxQ (sliceMap Bar.high df re (current + 1))
    if preHigh < curHigh then PatternStage.breakout else PatternStage.rebounding

/-- _calculate_volume_score (lines 635-675). -/
def calculate_volume_score (df : List Bar) (ds de be re : ℕ) : ℚ :=
  let dipVol := meanQ (sliceMap Bar.volume df ds (de + 1))
  let preVol := if 10 ≤ ds then meanQ (sliceMap Bar.volume df (ds - 10) ds) else dipVol
  let s1 : ℚ :=
    if 0 < preVol then
      (if 1.3 < dipVol / preVol then 5 else if dipVol / preVol < 0.7 then 3 else 2)
    else 0
  let bottomVol := meanQ (sliceMap Bar.volume df (de + 1) (be + 1))
  let s2 : ℚ := if de < be ∧ 0 < dipVol ∧ bottomVol / dipVol < 0.8 then 5 else 0
  let s3 : ℚ :=
    if be < re ∧ 0 < bottomVol ∧
        1.2 < meanQ (sliceMap Bar.volume df (be + 1) (re + 1)) / bottomVol then 5
    else 0
  min 10 (s1 + s2 + s3)

/-- Bullish moving-average alignment at the rebound end (lines 696-703); a
still-NaN average compares false. -/
def maGT (df : List Bar) (i : ℕ) : Bool :=
  match ma 5 df i, ma 10 df i with
  | some a, some b => decide (b < a)
  | _, _ => false

/-- _calculate_technical_score (lines 677-705); the RSI and MA columns are
always present after enrichment, so the column-membership tests hold. -/
def calculate_technical_score (df : List Bar) (ds de be re : ℕ) : ℚ :=
  let s1 : ℚ := if rsi df de < 30 then 3 else 0
  let s2 : ℚ := if be < re ∧ 40 < rsi df re then 3 else 0
  let s3 : ℚ := if be < re ∧ maGT df re then 2 else 0
  min 10 (s1 + s2 + s3)

/-- The additive confidence total of _calculate_confidence before the final
clamp (lines 587-631); ideal midpoints 8.5, 20 and 11.5 come from the
class-level duration and amplitude bounds. -/
def confidence_raw (df : List Bar) (ds de be re : ℕ) (dipAmp rebAmp : ℚ) : ℚ :=
  let dur : ℚ := (de - ds + 1 : ℕ)
  let durScore := max 0 (15 - |dur - 8.5| * 2)
  let ampScore := max 0 (15 - |(|dipAmp| - 20)| * 2)
  let botDur : ℚ := (be - de : ℕ)
  let botScore := max 0 (20 - |botDur - 11.5| * 3)
  let rebScore : ℚ :=
    if be < re then
      (if 0 < rebAmp then
        min 10 (rebAmp / 2) +
          (if 3 ≤ re - be then min 10 (10 - (((re - be : ℕ) : ℚ) - 3) * 0.5) else 0)
      else 0)
    else 0
  50 + durScore + ampScore + botScore + rebScore +
    calculate_volume_score df ds de be re + calculate_technical_score df ds de be re

/-- _calculate_confidence (lines 583-633), final clamp min(100, max(0, c)). -/
def calculate_confidence (df : List Bar) (ds de be re : ℕ) (dipAmp rebAmp : ℚ) : ℚ :=
  min 100 (max 0 (confidence_raw df ds de be re dipAmp rebAmp))

/-- _check_buy_signal (lines 707-739). -/
def check_buy_signal (df : List Bar) (current ds de be re : ℕ) : Bool × String :=
  let volRatio : ℚ :=
    match volMA5 df current with
    | some v => if 0 < v then volAt df current / v else 1
    | none => 1
  match determine_stage df current ds de be re with
  | PatternStage.bottoming =>
      if volRatio < 0.7 ∧
          |closeAt df current - openAt df current| / openAt df current * 100 < 2 then
        (true, "坑底缩量企稳，出现买点")
      else (false, "尚未出现明确买点")
  | PatternStage.rebounding =>
      if current - be ≤ 5 then
        if openAt df current < closeAt df current ∧ 1.5 < volRatio then
          (true, "反弹初期放量上涨，出现买点")
        else (false, "尚未出现明确买点")
      else (false, "尚未出现明确买点")
  | _ => (false, "尚未出现明确买点")

/-- _find_breakout_date loop (lines 741-749). -/
def find_breakout_dateAux (df : List Bar) (preHigh : ℚ) : ℕ → ℕ → Option ℕ
  | 0, _ => none
  | fuel + 1, i =>
      if preHigh < highAt df i then some (dateAt df i)
      else find_breakout_dateAux df preHigh fuel (i + 1)

def find_breakout_date (df : List Bar) (re : ℕ) (preHigh : ℚ) : Option ℕ :=
  find_breakout_dateAux df preHigh (df.length - (re + 1)) (re + 1)

/-- _calculate_volume_ratio (lines 751-761). -/
def calculate_volume_ratio (df : List Bar) (ds de rs re : ℕ) : ℚ :=
  if rs ≤ re then
    let dipAvg := meanQ (sliceMap Bar.volume df ds (de + 1))
    if 0 < dipAvg then meanQ (sliceMap Bar.volume df rs (re + 1)) / dipAvg else 1
  else 1

/-- The signed additive risk total of _calculate_risk_level before clamping
(lines 766-784); a NaN 20-day average fails both comparisons. -/
def risk_raw (df : List Bar) (current : ℕ) (dipAmp rebAmp : ℚ) : ℤ :=
  3 + (if 25 < |dipAmp| then 1 else 0) + (if 30 < rebAmp then -1 else 0) +
    (match ma 20 df current with
     | some m =>
         if closeAt df current < m * 0.9 then 1
         else if m < closeAt df current then -1 else 0
     | none => 0)

/-- _calculate_risk_level (lines 763-786), final clamp max(1, min(5, r)). -/
def calculate_risk_level (df : List Bar) (current : ℕ) (dipAmp rebAmp : ℚ) : ℤ :=
  max 1 (min 5 (risk_raw df current dipAmp rebAmp))

/-- _check_panic_wash_features (lines 788-805): each early return False
becomes one if-branch, in source order. -/
def check_panic_wash_features (r : PatternResult) : Bool :=
  if 10 < r.dip_duration then false
  else if r.dip_amplitude < 15 then false
  else if 0 < r.rebound_duration ∧
      r.rebound_amplitude / (r.rebound_duration : ℚ) < 2 then false
  else true

/-! ### _identify_pattern and detection entry points (lines 142-203, 264-413) -/

/-- The PatternResult built at lines 350-411 from a validated boundary triple
(ds = dip start, de = dip end, be = bottom end, re = rebound end). -/
def mk_result (df : List Bar) (code : String) (ds de be re : ℕ) : PatternResult :=
  let n := df.length
  let preHigh := maxQ (sliceMap Bar.high df (ds - 20) ds)
  let dipLow := minQ (sliceMap Bar.low df ds (de + 1))
  let dipAmp := dipAmplitude df ds de
  let rebAmp : ℚ :=
    if be + 1 < re then (closeAt df re - closeAt df be) / closeAt df be * 100 else 0
  let current := n - 1
  { code := code
    pattern_type := PatternType.goldenPit
    confidence := calculate_confidence df ds de be re dipAmp rebAmp
    start_date := dateAt df (ds - 20)
    dip_start_date := dateAt df ds
    bottom_start_date := dateAt df (de + 1)
    rebound_start_date := if be + 1 < n then some (dateAt df (be + 1)) else none
    breakout_date := find_breakout_date df re preHigh
    pre_high := preHigh
    dip_low := dipLow
    rebound_high := if be + 1 ≤ re then maxQ (sliceMap Bar.high df (be + 1) (re + 1)) else dipLow
    current_stage := determine_stage df current ds de be re
    dip_duration := de - ds + 1
    dip_amplitude := |dipAmp|
    rebound_duration := if be + 1 ≤ re then re - be else 0
    rebound_amplitude := rebAmp
    volume_ratio := calculate_volume_ratio df ds de (be + 1) re
    buy_signal := (check_buy_signal df current ds de be re).1
    buy_reason := (check_buy_signal df current ds de be re).2
    risk_level := calculate_risk_level df current dipAmp rebAmp }

/-- _identify_pattern (lines 328-413): locate the three boundaries, resolve a
missing rebound end to the last row, validate, then build the result. -/
def identify_pattern (df : List Bar) (code : String) (ds : ℕ) : Option PatternResult :=
  match find_dip_end df ds with
  | none => none
  | some de =>
      if df.length ≤ de then none
      else
        match find_bottom_end df (de + 1) with
        | none => none
        | some be =>
            if df.length ≤ be then none
            else
              let re := resolveReboundEnd df be
              if validate_pattern df ds de be re then some (mk_result df code ds de be re)
              else none

/-- _find_potential_patterns (lines 264-278): scan i in range(20, n-10). -/
def find_potential_patterns (df : List Bar) (code : String) : List PatternResult :=
  (List.range' 20 (df.length - 30)).filterMap
    (fun i => if is_dip_start df i then identify_pattern df code i else none)

/-- Python max(patterns, key=confidence): keep the first pattern of maximal
confidence (later ones replace only on a strictly greater key). -/
def best1 (b : PatternResult) : List PatternResult → PatternResult
  | [] => b
  | p :: ps => best1 (if b.confidence < p.confidence then p else b) ps

def best_pattern : List PatternResult → Option PatternResult
  | [] => none
  | p :: ps => some (best1 p ps)

/-- df.sort_values('date') (line 158); on pairwise-distinct dates any
comparison sort computes the same list. -/
def sort_values_date (df : List Bar) : List Bar :=
  List.insertionSort (fun a b => a.date ≤ b.date) df

/-- detect_golden_pit (lines 142-171): length guard (also covering the empty
frame), date sort, indicator enrichment (embedded as the indicator functions
above), candidate scan and best-confidence selection. -/
def detect_golden_pit (df : List Bar) (code : String) : Option PatternResult :=
  if df.length < 60 then none
  else best_pattern (find_potential_patterns (sort_values_date df) code)

/-- detect_panic_wash (lines 173-203): reuse the golden-pit result, then the
stricter feature check; on success the source mutates pattern_type and
confidence of the same object, embedded as a record update. -/
def detect_panic_wash (df : List Bar) (code : String) : Option PatternResult :=
  match detect_golden_pit df code with
  | none => none
  | some r =>
      if check_panic_wash_features r then
        some { r with
                 pattern_type := PatternType.panicWash
                 confidence := min 100 (r.confidence * 1.1) }
      else none

/-- detect_golden_pit with the Python None-frame argument made explicit:
the line 153 guard treats a missing frame like an empty one. -/
def detect_golden_pitO (df : Option (List Bar)) (code : String) : Option PatternResult :=
  match df with
  | none => none
  | some l => detect_golden_pit l code

def detect_panic_washO (df : Option (List Bar)) (code : String) : Option PatternResult :=
  match df with
  | none => none
  | some l => detect_panic_wash l code

/-! ### Concrete series used in the theorems below -/

/-- A 60-bar series realizing the golden-pit scenario of the spec: 20 flat
days, a 5-day decline of 18%, a 6-day tight base, a volume breakout and a
3-day rebound of about 10.6%, then flat padding.  Dates are the indices. -/
def wBarF (i : ℕ) : Bar :=
  if i < 20 then ⟨i, 100, 101, 99, 100, 1000⟩
  else if i = 20 then ⟨i, 100, 100, 89, 90, 1000⟩
  else if i = 21 then ⟨i, 90, 90, 84, 85, 1000⟩
  else if i = 22 then ⟨i, 85, 85, 79, 80, 1000⟩
  else if i = 23 then ⟨i, 80, 82, 79, 81, 1000⟩
  else if i = 24 then ⟨i, 81, 83, 80, 82, 1000⟩
  else if i < 30 then
    (if i % 2 = 1 then ⟨i, 82, 83, 80, 81, 1000⟩ else ⟨i, 81, 83, 80, 82, 1000⟩)
  else if i = 30 then ⟨i, 80, 86, 80, 85, 2000⟩
  else if i = 31 then ⟨i, 85, 89, 85, 88, 1000⟩
  else if i = 32 then ⟨i, 88, 92, 88, 91, 1000⟩
  else if i = 33 then ⟨i, 91, 95, 91, 94, 1000⟩
  else ⟨i, 94, 95, 93, 94, 1000⟩

def wDf : List Bar := (List.range 60).map wBarF

/- Batteries seals the rational-number primitives against elaborator
unfolding; evaluating the embedded analyzer on concrete series in proofs
needs them reducible again. -/
set_option allowUnsafeReducibility true in
attribute [semireducible] Rat.add Rat.mul Rat.inv Rat.sub Rat.ofScientific

set_option maxRecDepth 4000
set_option maxHeartbeats 1000000

/-- A small series for the base-end search in isolation: tight 2% envelope,
bearish candles, and at index 5 a (malformed, close above high) bar whose
close exceeds the running envelope high by more than 2%. -/
def bottomDf : List Bar :=
  [⟨0, 100, 100, 98, 99, 1000⟩, ⟨1, 100, 100, 98, 99, 1000⟩,
   ⟨2, 100, 100, 98, 99, 1000⟩, ⟨3, 100, 100, 98, 99, 1000⟩,
   ⟨4, 100, 100, 98, 99, 1000⟩, ⟨5, 111, 100, 98, 110, 1000⟩,
   ⟨6, 100, 100, 98, 99, 1000⟩, ⟨7, 100, 100, 98, 99, 1000⟩,
   ⟨8, 100, 100, 98, 99, 1000⟩, ⟨9, 100, 100, 98, 99, 1000⟩]

/-- A 31-bar series whose bar 20 is bullish with a body of exactly 3% of the
open (open 100, close 103 - a pair on which the source's float64 expression
abs(close-open)/open*100 also evaluates to exactly 3.0) after a 6.36%
day-over-day drop from a flat 20-day window at 110. -/
def dipDf : List Bar :=
  (List.range 31).map (fun i =>
    if i < 20 then ⟨i, 110, 111, 109, 110, 1000⟩
    else if i = 20 then ⟨i, 100, 104, 99, 103, 1000⟩
    else ⟨i, 103, 104, 102, 103, 1000⟩)

/-- Twenty strictly rising closes: from index 13 on the 14-period average
loss is 0 while the average gain is positive. -/
def rsiDf : List Bar :=
  (List.range 20).map (fun i => ⟨i, 100 + i, 101 + i, 99 + i, 100 + i, 1000⟩)

/-- Tiny two-row frames that are permutations of each other. -/
def permDf1 : List Bar := [⟨0, 1, 2, 1, 1, 10⟩, ⟨1, 2, 3, 2, 2, 20⟩]
def permDf2 : List Bar := [⟨1, 2, 3, 2, 2, 20⟩, ⟨0, 1, 2, 1, 1, 10⟩]

/-! ### Helper lemmas -/

theorem best1_mem (l : List PatternResult) : ∀ b : PatternResult,
    best1 b l = b ∨ best1 b l ∈ l := by
  induction l with
  | nil => intro b; exact Or.inl rfl
  | cons p ps ih =>
      intro b
      simp only [best1]
      rcases ih (if b.confidence < p.confidence then p else b) with h | h
      · rw [h]
        by_cases hc : b.confidence < p.confidence
        · simp [hc]
        · simp [hc]
      · exact Or.inr (List.mem_cons_of_mem p h)

theorem best_pattern_mem {l : List PatternResult} {r : PatternResult}
    (h : best_pattern l = some r) : r ∈ l := by
  cases l with
  | nil => simp [best_pattern] at h
  | cons p ps =>
      simp only [best_pattern, Option.some.injEq] at h
      rcases best1_mem ps p with h' | h'
      · rw [h] at h'; rw [h']; exact List.mem_cons_self p ps
      · rw [h] at h'; exact List.mem_cons_of_mem p h'

theorem detect_golden_pit_inv {df : List Bar} {code : String} {r : PatternResult}
    (h : detect_golden_pit df code = some r) :
    60 ≤ df.length ∧ ∃ i, is_dip_start (sort_values_date df) i = true ∧
      identify_pattern (sort_values_date df) code i = some r := by
  unfold detect_golden_pit at h
  split at h
  · exact absurd h (by simp)
  · refine ⟨by omega, ?_⟩
    have hmem := best_pattern_mem h
    unfold find_potential_patterns at hmem
    rcases List.mem_filterMap.mp hmem with ⟨i, _, hi⟩
    by_cases hd : is_dip_start (sort_values_date df) i
    · exact ⟨i, hd, by simpa [hd] using hi⟩
    · simp [hd] at hi

theorem identify_pattern_inv {df : List Bar} {code : String} {ds : ℕ} {r : PatternResult}
    (h : identify_pattern df code ds = some r) :
    ∃ de be, find_dip_end df ds = some de ∧ de < df.length ∧
      find_bottom_end df (de + 1) = some be ∧ be < df.length ∧
      validate_pattern df ds de be (resolveReboundEnd df be) = true ∧
      r = mk_result df code ds de be (resolveReboundEnd df be) := by
  unfold identify_pattern at h
  split at h
  · exact absurd h (by simp)
  next de hde =>
    split at h
    · exact absurd h (by simp)
    next hlen =>
      split at h
      · exact absurd h (by simp)
      next be hbe =>
        split at h
        · exact absurd h (by simp)
        next hlen2 =>
          simp only [] at h
          split at h
          next hval =>
            refine ⟨de, be, hde, by omega, hbe, by omega, hval, ?_⟩
            exact (Option.some.injEq _ _).mp h.symm
          next hval => exact absurd h (by simp)

theorem validate_pattern_facts {df : List Bar} {ds de be re : ℕ}
    (h : validate_pattern df ds de be re = true) :
    (ds < de ∧ de ≤ be ∧ be ≤ re) ∧
    (5 ≤ |dipAmplitude df ds de| ∧ |dipAmplitude df ds de| ≤ 35) ∧
    (2 ≤ de - ds + 1 ∧ de - ds + 1 ≤ 15) ∧
    (3 ≤ be - de ∧ be - de ≤ 20) ∧
    (be < re → 10 ≤ reboundAmpV df be re) := by
  unfold validate_pattern at h
  simp only [Bool.and_eq_true, Bool.or_eq_true, decide_eq_true_eq] at h
  refine ⟨h.1.1.1.1, h.1.1.1.2, h.1.1.2, h.1.2, ?_⟩
  intro hlt
  rcases h.2 with h' | h'
  · omega
  · exact h'

theorem calculate_confidence_bounds (df : List Bar) (ds de be re : ℕ)
    (dipAmp rebAmp : ℚ) :
    0 ≤ calculate_confidence df ds de be re dipAmp rebAmp ∧
      calculate_confidence df ds de be re dipAmp rebAmp ≤ 100 := by
  unfold calculate_confidence
  exact ⟨le_min (by norm_num) (le_max_left 0 _), min_le_left _ _⟩

theorem calculate_risk_level_bounds (df : List Bar) (current : ℕ)
    (dipAmp rebAmp : ℚ) :
    1 ≤ calculate_risk_level df current dipAmp rebAmp ∧
      calculate_risk_level df current dipAmp rebAmp ≤ 5 := by
  unfold calculate_risk_level
  constructor
  · exact le_max_left 1 _
  · exact max_le (by norm_num) (min_le_left _ _)

theorem detect_panic_wash_inv {df : List Bar} {code : String} {r : PatternResult}
    (h : detect_panic_wash df code = some r) :
    ∃ r0, detect_golden_pit df code = some r0 ∧ check_panic_wash_features r0 = true ∧
      r = { r0 with pattern_type := PatternType.panicWash,
                    confidence := min 100 (r0.confidence * 1.1) } := by
  unfold detect_panic_wash at h
  split at h
  · exact absurd h (by simp)
  next r0 hr0 =>
    split at h
    next hchk => exact ⟨r0, hr0, hchk, ((Option.some.injEq _ _).mp h).symm⟩
    next => exact absurd h (by simp)

theorem detect_golden_pit_bounds {df : List Bar} {code : String} {r : PatternResult}
    (h : detect_golden_pit df code = some r) :
    0 ≤ r.confidence ∧ r.confidence ≤ 100 ∧ 1 ≤ r.risk_level ∧ r.risk_level ≤ 5 := by
  obtain ⟨-, i, -, hid⟩ := detect_golden_pit_inv h
  obtain ⟨de, be, -, -, -, -, -, hr⟩ := identify_pattern_inv hid
  subst hr
  refine ⟨?_, ?_, ?_, ?_⟩
  · simp only [mk_result]
    exact (calculate_confidence_bounds _ _ _ _ _ _ _).1
  · simp only [mk_result]
    exact (calculate_confidence_bounds _ _ _ _ _ _ _).2
  · simp only [mk_result]
    exact (calculate_risk_level_bounds _ _ _ _).1
  · simp only [mk_result]
    exact (calculate_risk_level_bounds _ _ _ _).2

/-- Claim C1: whenever detect_golden_pit returns a PatternResult, the
boundary triple it was built from satisfies
dip_start < dip_end ≤ bottom_end ≤ rebound_end. -/
theorem claim_c1_boundary_order (df : List Bar) (code : String) (r : PatternResult)
    (h : detect_golden_pit df code = some r) :
    ∃ ds de be re, find_dip_end (sort_values_date df) ds = some de ∧
      find_bottom_end (sort_values_date df) (de + 1) = some be ∧
      re = resolveReboundEnd (sort_values_date df) be ∧
      identify_pattern (sort_values_date df) code ds = some r ∧
      ds < de ∧ de ≤ be ∧ be ≤ re := by
  obtain ⟨-, i, -, hid⟩ := detect_golden_pit_inv h
  obtain ⟨de, be, hde, -, hbe, -, hval, -⟩ := identify_pattern_inv hid
  obtain ⟨⟨h1, h2, h3⟩, -, -, -, -⟩ := validate_pattern_facts hval
  exact ⟨i, de, be, _, hde, hbe, rfl, hid, h1, h2, h3⟩

theorem claim_c1_witness :
    ∃ ds de be re, find_dip_end (sort_values_date wDf) ds = some de ∧
      find_bottom_end (sort_values_date wDf) (de + 1) = some be ∧
      re = resolveReboundEnd (sort_values_date wDf) be ∧
      identify_pattern (sort_values_date wDf) "001" ds = some ((detect_golden_pit wDf "001").get (by decide)) ∧
      ds < de ∧ de ≤ be ∧ be ≤ re := by
  have hs : (detect_golden_pit wDf "001").isSome = true := by decide
  exact claim_c1_boundary_order wDf "001" _ (Option.some_get hs).symm

/-- Claim C2: every returned PatternResult passed the validator, so its
decline amplitude magnitude lies in [5,35], its decline duration in [2,15],
its base duration in [3,20], and a non-empty rebound segment has a
close-to-close amplitude of at least 10 percent. -/
theorem claim_c2_validated_bounds (df : List Bar) (code : String) (r : PatternResult)
    (h : detect_golden_pit df code = some r) :
    ∃ ds de be re, find_dip_end (sort_values_date df) ds = some de ∧
      find_bottom_end (sort_values_date df) (de + 1) = some be ∧
      re = resolveReboundEnd (sort_values_date df) be ∧
      r.dip_amplitude = |dipAmplitude (sort_values_date df) ds de| ∧
      5 ≤ r.dip_amplitude ∧ r.dip_amplitude ≤ 35 ∧
      r.dip_duration = de - ds + 1 ∧ 2 ≤ r.dip_duration ∧ r.dip_duration ≤ 15 ∧
      3 ≤ be - de ∧ be - de ≤ 20 ∧
      (be < re → 10 ≤ reboundAmpV (sort_values_date df) be re) := by
  obtain ⟨-, i, -, hid⟩ := detect_golden_pit_inv h
  obtain ⟨de, be, hde, -, hbe, -, hval, hr⟩ := identify_pattern_inv hid
  obtain ⟨-, ⟨ha1, ha2⟩, ⟨hd1, hd2⟩, ⟨hb1, hb2⟩, hreb⟩ := validate_pattern_facts hval
  subst hr
  refine ⟨i, de, be, _, hde, hbe, rfl, ?_, ?_, ?_, ?_, ?_, ?_, hb1, hb2, hreb⟩
  · simp [mk_result]
  · simpa [mk_result] using ha1
  · simpa [mk_result] using ha2
  · simp [mk_result]
  · simpa [mk_result] using hd1
  · simpa [mk_result] using hd2

theorem claim_c2_witness :
    ∃ r, detect_golden_pit wDf "001" = some r ∧
      5 ≤ r.dip_amplitude ∧ r.dip_amplitude ≤ 35 ∧
      2 ≤ r.dip_duration ∧ r.dip_duration ≤ 15 := by
  have hs : (detect_golden_pit wDf "001").isSome = true := by decide
  obtain ⟨r, hr⟩ := Option.isSome_iff_exists.mp hs
  obtain ⟨ds, de, be, re, -, -, -, -, h1, h2, -, h3, h4, -⟩ :=
    claim_c2_validated_bounds wDf "001" r hr
  exact ⟨r, hr, h1, h2, h3, h4⟩

/-- Claim C3: every result of detect_golden_pit or detect_panic_wash has a
confidence in [0,100] and an integer risk level in [1,5]; this survives the
panic-wash confidence boost min(100, 1.1x). -/
theorem claim_c3_confidence_risk_bounds (df : List Bar) (code : String) (r : PatternResult)
    (h : detect_golden_pit df code = some r ∨ detect_panic_wash df code = some r) :
    0 ≤ r.confidence ∧ r.confidence ≤ 100 ∧ 1 ≤ r.risk_level ∧ r.risk_level ≤ 5 := by
  rcases h with h | h
  · exact detect_golden_pit_bounds h
  · obtain ⟨r0, hr0, -, hr⟩ := detect_panic_wash_inv h
    obtain ⟨hc0, hc1, hk0, hk1⟩ := detect_golden_pit_bounds hr0
    subst hr
    refine ⟨?_, ?_, hk0, hk1⟩
    · exact le_min (by norm_num) (by nlinarith)
    · exact min_le_left _ _

theorem claim_c3_witness :
    ∃ g p, detect_golden_pit wDf "001" = some g ∧ detect_panic_wash wDf "001" = some p ∧
      0 ≤ g.confidence ∧ g.confidence ≤ 100 ∧ 1 ≤ g.risk_level ∧ g.risk_level ≤ 5 ∧
      0 ≤ p.confidence ∧ p.confidence ≤ 100 ∧ 1 ≤ p.risk_level ∧ p.risk_level ≤ 5 := by
  have hg : (detect_golden_pit wDf "001").isSome = true := by decide
  have hp : (detect_panic_wash wDf "001").isSome = true := by decide
  obtain ⟨g, hgr⟩ := Option.isSome_iff_exists.mp hg
  obtain ⟨p, hpr⟩ := Option.isSome_iff_exists.mp hp
  obtain ⟨a1, a2, a3, a4⟩ := claim_c3_confidence_risk_bounds wDf "001" g (Or.inl hgr)
  obtain ⟨b1, b2, b3, b4⟩ := claim_c3_confidence_risk_bounds wDf "001" p (Or.inr hpr)
  exact ⟨g, p, hgr, hpr, a1, a2, a3, a4, b1, b2, b3, b4⟩

theorem check_panic_iff (r : PatternResult) :
    check_panic_wash_features r = true ↔
      (r.dip_duration ≤ 10 ∧ 15 ≤ r.dip_amplitude ∧
       (0 < r.rebound_duration → 2 ≤ r.rebound_amplitude / (r.rebound_duration : ℚ))) := by
  constructor
  · intro h
    unfold check_panic_wash_features at h
    split_ifs at h with h1 h2 h3
    refine ⟨by omega, by linarith, fun hd => ?_⟩
    by_contra hcon
    exact h3 ⟨hd, by linarith⟩
  · rintro ⟨p1, p2, p3⟩
    unfold check_panic_wash_features
    rw [if_neg (by omega), if_neg (by linarith)]
    rw [if_neg ?_]
    rintro ⟨hd, hlt⟩
    exact absurd (p3 hd) (by linarith)

/-- Claim C5: detect_panic_wash succeeds exactly when detect_golden_pit
returns a result with decline duration at most 10, decline amplitude at
least 15 percent, and (when the rebound duration is positive) an average
daily rebound pace of at least 2; when it succeeds, the pattern kind is
panic_wash and the confidence is min(100, 1.1 times the golden-pit
confidence), which is at least the golden-pit confidence. -/
theorem claim_c5_panic_wash_iff (df : List Bar) (code : String) :
    ((detect_panic_wash df code).isSome ↔
      ∃ r, detect_golden_pit df code = some r ∧ r.dip_duration ≤ 10 ∧
        15 ≤ r.dip_amplitude ∧
        (0 < r.rebound_duration → 2 ≤ r.rebound_amplitude / (r.rebound_duration : ℚ))) ∧
    (∀ r, detect_golden_pit df code = some r →
      r.dip_duration ≤ 10 → 15 ≤ r.dip_amplitude →
      (0 < r.rebound_duration → 2 ≤ r.rebound_amplitude / (r.rebound_duration : ℚ)) →
      detect_panic_wash df code =
          some { r with pattern_type := PatternType.panicWash,
                        confidence := min 100 (r.confidence * 1.1) } ∧
        r.confidence ≤ min 100 (r.confidence * 1.1)) := by
  constructor
  · constructor
    · intro hs
      obtain ⟨p, hp⟩ := Option.isSome_iff_exists.mp hs
      obtain ⟨r0, hr0, hchk, -⟩ := detect_panic_wash_inv hp
      exact ⟨r0, hr0, (check_panic_iff r0).mp hchk⟩
    · rintro ⟨r, hr, h1, h2, h3⟩
      have hchk : check_panic_wash_features r = true := (check_panic_iff r).mpr ⟨h1, h2, h3⟩
      unfold detect_panic_wash
      rw [hr]
      simp [hchk]
  · intro r hr h1 h2 h3
    have hchk : check_panic_wash_features r = true := (check_panic_iff r).mpr ⟨h1, h2, h3⟩
    obtain ⟨hc0, hc1, -, -⟩ := detect_golden_pit_bounds hr
    constructor
    · unfold detect_panic_wash
      rw [hr]
      simp [hchk]
    · exact le_min hc1 (by nlinarith)

theorem claim_c5_witness :
    (detect_panic_wash wDf "001").isSome ∧
    ∃ r, detect_golden_pit wDf "001" = some r ∧ r.dip_duration ≤ 10 ∧
      15 ≤ r.dip_amplitude ∧
      (0 < r.rebound_duration → 2 ≤ r.rebound_amplitude / (r.rebound_duration : ℚ)) ∧
      detect_panic_wash wDf "001" =
        some { r with pattern_type := PatternType.panicWash,
                      confidence := min 100 (r.confidence * 1.1) } ∧
      r.confidence ≤ min 100 (r.confidence * 1.1) := by
  have hs : (detect_panic_wash wDf "001").isSome = true := by decide
  obtain ⟨r, hr, h1, h2, h3⟩ := (claim_c5_panic_wash_iff wDf "001").1.mp hs
  obtain ⟨hp, hc⟩ := (claim_c5_panic_wash_iff wDf "001").2 r hr h1 h2 h3
  exact ⟨hs, r, hr, h1, h2, h3, hp, hc⟩

/-- Claim C4: fewer than 60 bars (including an empty or missing frame) means
both detectors return none without raising, and 60 bars is the minimum
length for which a result can be returned (witnessed by a 60-bar series on
which detection succeeds). -/
theorem claim_c4_min_length :
    (∀ (df : List Bar) (code : String), df.length < 60 →
        detect_golden_pit df code = none ∧ detect_panic_wash df code = none) ∧
    (∀ code : String, detect_golden_pitO none code = none ∧
        detect_panic_washO none code = none ∧
        detect_golden_pitO (some []) code = none) ∧
    (∃ df : List Bar, ∃ code : String,
        df.length = 60 ∧ (detect_golden_pit df code).isSome = true) := by
  have hshort : ∀ (df : List Bar) (code : String), df.length < 60 →
      detect_golden_pit df code = none := by
    intro df code hlen
    unfold detect_golden_pit
    rw [if_pos hlen]
  refine ⟨?_, ?_, ?_⟩
  · intro df code hlen
    refine ⟨hshort df code hlen, ?_⟩
    unfold detect_panic_wash
    rw [hshort df code hlen]
  · intro code
    refine ⟨rfl, rfl, ?_⟩
    unfold detect_golden_pitO
    exact hshort [] code (by simp)
  · exact ⟨wDf, "001", by decide, by decide⟩

theorem claim_c4_witness :
    (wDf.take 59).length < 60 ∧
      detect_golden_pit (wDf.take 59) "001" = none ∧
      detect_panic_wash (wDf.take 59) "001" = none := by
  have hlen : (wDf.take 59).length < 60 := by decide
  obtain ⟨h1, h2⟩ := claim_c4_min_length.1 (wDf.take 59) "001" hlen
  exact ⟨hlen, h1, h2⟩

/-- Claim C9 counterexample: on the witness series the golden-pit result has
pattern kind golden_pit and confidence 3325/34, while the panic-wash
reclassification of that very result carries pattern kind panic_wash and
confidence 100 - so the result produced by the inner golden-pit detection
does not keep its pattern_type and confidence fields through
detect_panic_wash. -/
theorem claim_c9_counterexample :
    (detect_golden_pit wDf "001").map PatternResult.pattern_type =
        some PatternType.goldenPit ∧
    (detect_panic_wash wDf "001").map PatternResult.pattern_type =
        some PatternType.panicWash ∧
    (detect_golden_pit wDf "001").map PatternResult.confidence ≠
      (detect_panic_wash wDf "001").map PatternResult.confidence := by
  refine ⟨by decide, by decide, by decide⟩

/-- Claim C9 amended: the panic-wash reclassification rewrites exactly the
pattern_type and confidence fields of the golden-pit result (in the source
by in-place mutation of the same object); every other field is preserved,
as the record update makes explicit. -/
theorem claim_c9_amended (df : List Bar) (code : String)
    (h : (detect_panic_wash df code).isSome = true) :
    ∃ r, detect_golden_pit df code = some r ∧
      detect_panic_wash df code =
        some { r with pattern_type := PatternType.panicWash,
                      confidence := min 100 (r.confidence * 1.1) } := by
  obtain ⟨p, hp⟩ := Option.isSome_iff_exists.mp h
  obtain ⟨r0, hr0, -, hr⟩ := detect_panic_wash_inv hp
  subst hr
  exact ⟨r0, hr0, hp⟩

theorem claim_c9_witness :
    (detect_panic_wash wDf "001").isSome = true ∧
    ∃ r, detect_golden_pit wDf "001" = some r ∧
      detect_panic_wash wDf "001" =
        some { r with pattern_type := PatternType.panicWash,
                      confidence := min 100 (r.confidence * 1.1) } := by
  have hs : (detect_panic_wash wDf "001").isSome = true := by decide
  exact ⟨hs, claim_c9_amended wDf "001" hs⟩

theorem find_bottom_endAux_first (df : List Bar) (s : ℕ) :
    ∀ (fuel i t : ℕ), i ≤ t → t < i + fuel →
      (∀ j, i ≤ j → j < t →
        bottom_range_cond df s j = false ∧ bottom_break_cond df s j = false) →
      bottom_break_cond df s t = true →
      find_bottom_endAux df s fuel i = some t := by
  intro fuel
  induction fuel with
  | zero => intro i t h1 h2 _ _; omega
  | succ fuel ih =>
      intro i t h1 h2 hno hb
      by_cases hit : i = t
      · subst hit
        cases hA : bottom_range_cond df s i
        · simp [find_bottom_endAux, hA, hb]
        · simp [find_bottom_endAux, hA]
      · have hlt : i < t := by omega
        have hni := hno i le_rfl hlt
        have : find_bottom_endAux df s (fuel + 1) i = find_bottom_endAux df s fuel (i + 1) := by
          simp [find_bottom_endAux, hni.1, hni.2]
        rw [this]
        exact ih (i + 1) t (by omega) (by omega) (fun j hj1 hj2 => hno j (by omega) hj2) hb

/-- Claim C6: termination rule (b) of the base-end search is reachable and
effective.  First part: a concrete series on which, more than the minimum
base duration past the base start, a close exceeds the running envelope high
by more than 2% and the search returns exactly that index.  Second part: on
any input, if the scan reaches an index satisfying rule (b) without having
terminated earlier, the search returns that index.  (Since the running
envelope already includes the current bar's high, rule (b) can only fire on
a bar whose close exceeds 1.02 times its own high; the Bar model does not
constrain close against high, so such inputs are admissible.) -/
theorem claim_c6_rule_b_effective :
    (∃ (df : List Bar) (s i : ℕ), s + 3 < i ∧
        envHigh df s i * 1.02 < closeAt df i ∧ find_bottom_end df s = some i) ∧
    (∀ (df : List Bar) (s i : ℕ), s + 1 ≤ i → i < min (s + 21) df.length →
      (∀ j, j < i → s + 1 ≤ j →
        bottom_range_cond df s j = false ∧ bottom_break_cond df s j = false) →
      bottom_break_cond df s i = true →
      find_bottom_end df s = some i) := by
  constructor
  · exact ⟨bottomDf, 0, 5, by decide, by decide, by decide⟩
  · intro df s i h1 h2 hno hb
    unfold find_bottom_end
    rw [if_neg (by omega)]
    apply find_bottom_endAux_first df s _ (s + 1) i h1 (by omega)
      (fun j hj1 hj2 => hno j hj2 hj1) hb

theorem claim_c6_witness :
    bottom_break_cond bottomDf 0 5 = true ∧ find_bottom_end bottomDf 0 = some 5 := by
  refine ⟨by decide, ?_⟩
  exact claim_c6_rule_b_effective.2 bottomDf 0 5 (by decide) (by decide)
    (by decide) (by decide)

/-- Claim C7 counterexample: on dipDf bar 20 is bullish with body exactly 3%
of the open and the scanner nevertheless accepts it, because the source
rejects a bullish candidate only when its body strictly exceeds 3%. -/
theorem claim_c7_counterexample :
    is_dip_start dipDf 20 = true ∧ openAt dipDf 20 < closeAt dipDf 20 ∧
      |closeAt dipDf 20 - openAt dipDf 20| / openAt dipDf 20 * 100 = 3 := by
  refine ⟨by decide, by decide, by decide⟩

/-- Claim C7 amended: for an index with a full 20-bar prior window and a
positive mean prior close, the scanner accepts it as a decline onset exactly
when the normalized regression slope of the 20 prior closes is not below
-0.5% per day, the day-over-day close change is at most -1.5%, and a bullish
bar's body is at most (not strictly below) 3% of its open. -/
theorem claim_c7_amended (df : List Bar) (idx : ℕ) (h20 : 20 ≤ idx)
    (hlen : idx ≤ df.length) (havg : 0 < meanQ (dipStartPre df idx)) :
    is_dip_start df idx = true ↔
      (-0.005 ≤ slopeFit (dipStartPre df idx) / meanQ (dipStartPre df idx) ∧
       (closeAt df idx - closeAt df (idx - 1)) / closeAt df (idx - 1) * 100 ≤ -1.5 ∧
       (openAt df idx < closeAt df idx →
         |closeAt df idx - openAt df idx| / openAt df idx * 100 ≤ 3)) := by
  have hplen : (dipStartPre df idx).length = 20 := by
    simp only [dipStartPre, sliceMap, List.length_map, List.length_take, List.length_drop]
    omega
  simp only [is_dip_start]
  rw [if_neg (by omega), if_neg (by rw [hplen]; omega), if_pos havg]
  constructor
  · intro h
    have hA : ¬(slopeFit (dipStartPre df idx) / meanQ (dipStartPre df idx) < -0.005) := by
      intro hA
      rw [if_pos hA] at h
      exact absurd h (by simp)
    rw [if_neg hA] at h
    have hB : ¬(-1.5 < (closeAt df idx - closeAt df (idx - 1)) / closeAt df (idx - 1) * 100) := by
      intro hB
      rw [if_pos hB] at h
      exact absurd h (by simp)
    rw [if_neg hB] at h
    have hC : ¬(openAt df idx < closeAt df idx ∧
        3 < |closeAt df idx - openAt df idx| / openAt df idx * 100) := by
      intro hC
      rw [if_pos hC] at h
      exact absurd h (by simp)
    refine ⟨le_of_not_lt hA, le_of_not_lt hB, fun hbull => ?_⟩
    by_contra h3
    exact hC ⟨hbull, lt_of_not_le h3⟩
  · rintro ⟨g1, g2, g3⟩
    rw [if_neg (not_lt.mpr g1), if_neg (not_lt.mpr g2), if_neg ?_]
    rintro ⟨hbull, hbody⟩
    exact absurd (g3 hbull) (not_le.mpr hbody)

theorem claim_c7_witness :
    (20 ≤ dipDf.length ∧ 0 < meanQ (dipStartPre dipDf 20)) ∧
    (is_dip_start dipDf 20 = true ↔
      (-0.005 ≤ slopeFit (dipStartPre dipDf 20) / meanQ (dipStartPre dipDf 20) ∧
       (closeAt dipDf 20 - closeAt dipDf 19) / closeAt dipDf 19 * 100 ≤ -1.5 ∧
       (openAt dipDf 20 < closeAt dipDf 20 →
         |closeAt dipDf 20 - openAt dipDf 20| / openAt dipDf 20 * 100 ≤ 3))) := by
  refine ⟨⟨by decide, by decide⟩, ?_⟩
  exact claim_c7_amended dipDf 20 (by decide) (by decide) (by decide)

/-- Claim C8 counterexample: on twenty strictly rising closes the 14-period
average loss at index 13 is zero while the average gain is positive, and the
stored RSI value is 100, not the neutral midpoint 50 (the float division
yields +infinity there, so the NaN fill never applies). -/
theorem claim_c8_counterexample :
    avgLoss rsiDf 13 = 0 ∧ 0 < avgGain rsiDf 13 ∧
      rsi rsiDf 13 = 100 ∧ rsi rsiDf 13 ≠ 50 := by
  refine ⟨by decide, by decide, by decide, by decide⟩

/-- Claim C8 amended: rows whose oscillator is not computable for lack of
history are stored as 50, as are rows where both the 14-period average gain
and average loss vanish (the 0/0 NaN case); but a row whose average loss is
zero with a nonzero average gain is stored as 100. -/
theorem claim_c8_amended (df : List Bar) (i : ℕ) :
    (i < 13 → rsi df i = 50) ∧
    (13 ≤ i → i < df.length → avgLoss df i = 0 → avgGain df i = 0 → rsi df i = 50) ∧
    (13 ≤ i → i < df.length → avgLoss df i = 0 → avgGain df i ≠ 0 → rsi df i = 100) := by
  refine ⟨?_, ?_, ?_⟩
  · intro h
    unfold rsi
    rw [if_pos (Or.inl h)]
  · intro h1 h2 hl hg
    unfold rsi
    rw [if_neg (by omega)]
    simp only []
    rw [if_pos hl, if_pos hg]
  · intro h1 h2 hl hg
    unfold rsi
    rw [if_neg (by omega)]
    simp only []
    rw [if_pos hl, if_neg hg]

theorem claim_c8_witness :
    rsi rsiDf 5 = 50 ∧ rsi wDf 13 = 50 ∧ rsi rsiDf 13 = 100 := by
  refine ⟨(claim_c8_amended rsiDf 5).1 (by omega), ?_, ?_⟩
  · exact (claim_c8_amended wDf 13).2.1 (by omega) (by decide) (by decide) (by decide)
  · exact (claim_c8_amended rsiDf 13).2.2 (by omega) (by decide) (by decide) (by decide)

/-! ### Claim C10: order insensitivity of detection -/

theorem sorted_nodup_perm_eq :
    ∀ {l1 l2 : List Bar}, l1.Sorted (fun a b => a.date ≤ b.date) →
      l2.Sorted (fun a b => a.date ≤ b.date) → l1.Perm l2 →
      (l1.map Bar.date).Nodup → l1 = l2 := by
  intro l1
  induction l1 with
  | nil => intro l2 _ _ hp _; exact (hp.nil_eq).symm ▸ rfl
  | cons a t ih =>
      intro l2 h1 h2 hp hnd
      cases l2 with
      | nil => exact absurd hp.symm.nil_eq (by simp)
      | cons b t2 =>
          have hab : a = b := by
            have ha2 : a ∈ b :: t2 := hp.mem_iff.mp (List.mem_cons_self a t)
            rcases List.mem_cons.mp ha2 with h | hat2
            · exact h
            · have hba : b ∈ a :: t := hp.mem_iff.mpr (List.mem_cons_self b t2)
              rcases List.mem_cons.mp hba with h | hbt
              · exact h.symm
              · have hd1 : a.date ≤ b.date := (List.sorted_cons.mp h1).1 b hbt
                have hd2 : b.date ≤ a.date := (List.sorted_cons.mp h2).1 a hat2
                have hdeq : b.date = a.date := le_antisymm hd2 hd1
                have : a.date ∈ t.map Bar.date :=
                  List.mem_map.mpr ⟨b, hbt, hdeq⟩
                exact absurd this ((List.nodup_cons.mp hnd).1)
          subst hab
          have ht : t.Perm t2 := hp.cons_inv
          have := ih (List.sorted_cons.mp h1).2 (List.sorted_cons.mp h2).2 ht
            (List.nodup_cons.mp hnd).2
          rw [this]

theorem sort_values_date_perm_eq (l1 l2 : List Bar) (hp : l1.Perm l2)
    (hnd : (l1.map Bar.date).Nodup) :
    sort_values_date l1 = sort_values_date l2 := by
  have ht : IsTrans Bar (fun a b => a.date ≤ b.date) :=
    ⟨fun _ _ _ h h' => le_trans h h'⟩
  have hto : IsTotal Bar (fun a b => a.date ≤ b.date) :=
    ⟨fun a b => Nat.le_total a.date b.date⟩
  have hs1 := @List.sorted_insertionSort Bar (fun a b => a.date ≤ b.date) _ hto ht l1
  have hs2 := @List.sorted_insertionSort Bar (fun a b => a.date ≤ b.date) _ hto ht l2
  have hperm : (sort_values_date l1).Perm (sort_values_date l2) :=
    ((List.perm_insertionSort _ l1).trans hp).trans (List.perm_insertionSort _ l2).symm
  have hnd1 : ((sort_values_date l1).map Bar.date).Nodup := by
    unfold sort_values_date
    exact (((List.perm_insertionSort (fun a b => a.date ≤ b.date) l1).map Bar.date).nodup_iff).mpr hnd
  exact sorted_nodup_perm_eq hs1 hs2 hperm hnd1

/-- Claim C10: detection is insensitive to the ordering of the input rows -
for pairwise-distinct dates, any permutation of the rows yields the same
result, because the series is re-sorted by date before analysis (and the
embedding is pure, so the caller's list is never modified). -/
theorem claim_c10_permutation_invariance (l1 l2 : List Bar) (code : String)
    (hp : l1.Perm l2) (hnd : (l1.map Bar.date).Nodup) :
    detect_golden_pit l1 code = detect_golden_pit l2 code := by
  unfold detect_golden_pit
  rw [hp.length_eq, sort_values_date_perm_eq l1 l2 hp hnd]

theorem claim_c10_witness :
    detect_golden_pit permDf1 "001" = detect_golden_pit permDf2 "001" :=
  claim_c10_permutation_invariance permDf1 permDf2 "001" (by decide) (by decide)
